import Mathlib

/-!
Shallow embedding of `StudyPlan.generate_plan` from `src/main.py` (the
StudyNest study-plan generator), together with theorems settling the
specification's claims about it.

Modelling choices:
* Python integers are modelled as `Int`; Python's floor division `//` is
  `Int.fdiv`.
* The Python method mutates the caller's `Subject` objects in place
  (`subject.hours_needed -= hours_to_assign`).  This effect is made explicit:
  `generate_plan` returns a pair of the result dictionary and the final state
  of the caller's subject list.
* The Python function builds two plan dictionaries: a first greedy plan that
  is immediately discarded (the source reassigns `plan` to an empty dict) and
  a second round-robin plan that is actually returned.  Both passes are
  embedded; the greedy pass's dictionary is discarded exactly as in the
  source, while its mutation of the subjects persists into the second pass.
* Dictionaries with insertion order are modelled as association lists.
-/

/-- A study subject, mirroring the Python class `Subject` with fields
`name` and `hours_needed`. -/
structure Subject where
  name : String
  hours_needed : Int
deriving DecidableEq, Repr

/-- Result of `generate_plan`: either the error dictionary whose single key
is `Error` carrying the message, or the returned round-robin plan dictionary,
an insertion-ordered list of pairs of a day key and a single assignment
string. -/
inductive ScheduleResult where
  | error (msg : String)
  | plan (entries : List (String × String))
deriving DecidableEq, Repr

/-- Python `sum(sub.hours_needed for sub in subjects)`. -/
def sumHours (subs : List Subject) : Int :=
  (subs.map Subject.hours_needed).sum

/-- The assignment string `name - h hrs` built by both passes. -/
def assignStr (name : String) (h : Int) : String :=
  name ++ " - " ++ toString h ++ " hrs"

/-- The day key `Day n` used by both passes. -/
def dayKey (n : Nat) : String :=
  "Day " ++ toString n

/-- The inner `while` loop of the greedy (first, later discarded) pass for a
single day.  State: the (mutated) subject list `subs`, the cursor
`idx` (`current_subject_index`), the hours assigned so far today `assigned`,
and the day's accumulated assignment strings `acc`.  Returns the day's list,
the mutated subjects and the new cursor.

The loop body either advances `idx` (when the current subject's remaining
hours reach 0) or fills the day's budget exactly (`assigned` becomes
`hpd`, upon which the source `break`s, returned here directly since the loop
condition would fail anyway); hence `fuel = subs.length - idx` iterations
always suffice and the fuel-exhausted arm is unreachable from the entry
point, which passes `fuel = subs.length`
(see `assignDay_fuel_irrelevant`). -/
def assignDay (hpd : Int) (fuel : Nat) (subs : List Subject) (idx : Nat)
    (assigned : Int) (acc : List String) : List String × List Subject × Nat :=
  if hc : assigned < hpd ∧ idx < subs.length then
    let subject := subs.get ⟨idx, hc.2⟩
    let hta := min subject.hours_needed (hpd - assigned)
    let acc' := acc ++ [assignStr subject.name hta]
    let subs' := subs.set idx ⟨subject.name, subject.hours_needed - hta⟩
    if subject.hours_needed - hta ≤ 0 then
      match fuel with
      | 0 => (acc', subs', idx + 1)
      | fuel' + 1 => assignDay hpd fuel' subs' (idx + 1) (assigned + hta) acc'
    else
      (acc', subs', idx)
  else (acc, subs, idx)

/-- One iteration of the greedy pass's `for day_num in range(1, days+1)`
loop: run the day's inner while loop, then, on the last day only, if
subjects remain, append the `Remaining Subjects - N hrs (Adjusted)` entry
when the remaining total is positive. -/
def greedyDay (hpd : Int) (totalDays dayNum : Nat) (subs : List Subject)
    (idx : Nat) : List String × List Subject × Nat :=
  let r := assignDay hpd subs.length subs idx 0 []
  if dayNum = totalDays ∧ r.2.2 < r.2.1.length then
    let remaining := sumHours (r.2.1.drop r.2.2)
    if remaining > 0 then
      (r.1 ++ ["Remaining Subjects - " ++ toString remaining ++ " hrs (Adjusted)"],
        r.2.1, r.2.2)
    else r
  else r

/-- The greedy pass's day loop: `rem` days left to process, `dayNum` the
current 1-based day number, accumulating the greedy plan dictionary. -/
def greedyPass (hpd : Int) (totalDays : Nat) :
    Nat → Nat → List Subject → Nat → List (String × List String) →
    List (String × List String) × List Subject × Nat
  | 0, _, subs, idx, plan => (plan, subs, idx)
  | rem + 1, dayNum, subs, idx, plan =>
    let d := greedyDay hpd totalDays dayNum subs idx
    greedyPass hpd totalDays rem (dayNum + 1) d.2.1 d.2.2
      (plan ++ [(dayKey dayNum, d.1)])

/-- The second pass, the one whose dictionary is actually returned: a
round-robin walk assigning day `k` (1-based) the single string built from
`subjects[(k-1) % len(subjects)]` with its current (post-greedy-pass)
`hours_needed`.  With no subjects the source `break`s on the first
iteration, leaving the dictionary empty. -/
def roundRobinPass (subs : List Subject) (totalDays : Nat) :
    List (String × String) :=
  if hs : subs.length = 0 then []
  else
    (List.range totalDays).map fun k =>
      (dayKey (k + 1),
        assignStr (subs.get ⟨k % subs.length, Nat.mod_lt k (Nat.pos_of_ne_zero hs)⟩).name
          (subs.get ⟨k % subs.length, Nat.mod_lt k (Nat.pos_of_ne_zero hs)⟩).hours_needed)

/-- Embedding of `StudyPlan.generate_plan` from `src/main.py`.  Returns the
result dictionary together with the final (caller-visible) state of the
subject list.  Mirrors the source line by line: compute `total_hours`; error
out on `days <= 0`; compute `hours_per_day`; run the greedy pass (whose plan
dictionary is discarded, `g.1` unused, but whose subject mutations persist);
return the round-robin plan built from the mutated subjects. -/
def generate_plan (subjects : List Subject) (days : Int) :
    ScheduleResult × List Subject :=
  let total_hours := sumHours subjects
  if days ≤ 0 then
    (ScheduleResult.error "Number of days must be at least 1.", subjects)
  else
    let hours_per_day :=
      if total_hours > 0 then max 1 (Int.fdiv total_hours days) else 0
    let g := greedyPass hours_per_day days.toNat days.toNat 1 subjects 0 []
    (ScheduleResult.plan (roundRobinPass g.2.1 days.toNat), g.2.1)

/-- The state of the caller's subject list after the greedy pass has
mutated it in place (the hours the round-robin pass reads). -/
def postGreedySubjects (subjects : List Subject) (days : Int) : List Subject :=
  let total_hours := sumHours subjects
  let hours_per_day :=
    if total_hours > 0 then max 1 (Int.fdiv total_hours days) else 0
  (greedyPass hours_per_day days.toNat days.toNat 1 subjects 0 []).2.1

/-- Number of day entries in a result dictionary (0 for the error result). -/
def dayCount : ScheduleResult → Nat
  | ScheduleResult.error _ => 0
  | ScheduleResult.plan es => es.length

/-! ### Supporting lemmas -/

/-- With fuel at least `subs.length - idx` the fuel-exhausted arm of
`assignDay` is never reached: any two sufficient fuel values give the same
result.  (The entry point in `greedyDay` passes `fuel = subs.length`, which
always suffices.) -/
theorem assignDay_fuel_irrelevant (hpd : Int) :
    ∀ f₁ f₂ subs idx assigned acc,
      subs.length - idx ≤ f₁ → subs.length - idx ≤ f₂ →
      assignDay hpd f₁ subs idx assigned acc =
        assignDay hpd f₂ subs idx assigned acc := by
  intro f₁
  induction f₁ with
  | zero =>
    intro f₂ subs idx assigned acc h₁ _
    have hge : ¬ (assigned < hpd ∧ idx < subs.length) := by
      rintro ⟨-, hlt⟩; omega
    conv_lhs => rw [assignDay]
    conv_rhs => rw [assignDay]
    rw [dif_neg hge, dif_neg hge]
  | succ n ih =>
    intro f₂ subs idx assigned acc h₁ h₂
    by_cases hc : assigned < hpd ∧ idx < subs.length
    · obtain ⟨m, rfl⟩ : ∃ m, f₂ = m + 1 := ⟨f₂ - 1, by omega⟩
      conv_lhs => rw [assignDay]
      conv_rhs => rw [assignDay]
      rw [dif_pos hc, dif_pos hc]
      dsimp only
      by_cases hz :
          (subs.get ⟨idx, hc.2⟩).hours_needed -
            min (subs.get ⟨idx, hc.2⟩).hours_needed (hpd - assigned) ≤ 0
      · rw [if_pos hz, if_pos hz]
        apply ih
        · rw [List.length_set]; omega
        · rw [List.length_set]; omega
      · rw [if_neg hz, if_neg hz]
    · conv_lhs => rw [assignDay]
      conv_rhs => rw [assignDay]
      rw [dif_neg hc, dif_neg hc]

/-- The inner day loop never changes the length of the subject list (it only
`set`s elements). -/
theorem assignDay_length (hpd : Int) :
    ∀ fuel subs idx assigned acc,
      ((assignDay hpd fuel subs idx assigned acc).2.1).length = subs.length := by
  intro fuel
  induction fuel with
  | zero =>
    intro subs idx assigned acc
    rw [assignDay]
    split
    · dsimp only
      split
      · simp
      · simp
    · rfl
  | succ n ih =>
    intro subs idx assigned acc
    rw [assignDay]
    split
    · dsimp only
      split
      · rw [ih]; simp
      · simp
    · rfl

/-- One greedy day never changes the length of the subject list. -/
theorem greedyDay_length (hpd : Int) (totalDays dayNum : Nat)
    (subs : List Subject) (idx : Nat) :
    ((greedyDay hpd totalDays dayNum subs idx).2.1).length = subs.length := by
  rw [greedyDay]
  split
  · dsimp only
    split
    · exact assignDay_length hpd subs.length subs idx 0 []
    · exact assignDay_length hpd subs.length subs idx 0 []
  · exact assignDay_length hpd subs.length subs idx 0 []

/-- The whole greedy pass never changes the length of the subject list. -/
theorem greedyPass_length (hpd : Int) (totalDays : Nat) :
    ∀ rem dayNum subs idx plan,
      ((greedyPass hpd totalDays rem dayNum subs idx plan).2.1).length =
        subs.length := by
  intro rem
  induction rem with
  | zero => intro dayNum subs idx plan; rfl
  | succ n ih =>
    intro dayNum subs idx plan
    rw [greedyPass, ih]
    exact greedyDay_length hpd totalDays dayNum subs idx

/-- The post-greedy subject list has the same length as the input. -/
theorem postGreedySubjects_length (subjects : List Subject) (days : Int) :
    (postGreedySubjects subjects days).length = subjects.length := by
  unfold postGreedySubjects
  exact greedyPass_length _ _ _ _ _ _ _

/-- On `days ≤ 0`, `generate_plan` returns the error dictionary and the
untouched subject list. -/
theorem generate_plan_nonpos (subs : List Subject) (days : Int)
    (hd : days ≤ 0) :
    generate_plan subs days =
      (ScheduleResult.error "Number of days must be at least 1.", subs) := by
  rw [generate_plan]
  simp [hd]

/-- On `days ≥ 1`, `generate_plan` returns the round-robin plan built from
the greedy-mutated subject list, and that mutated list itself. -/
theorem generate_plan_pos (subs : List Subject) (days : Int) (hd : 0 < days) :
    generate_plan subs days =
      (ScheduleResult.plan
          (roundRobinPass (postGreedySubjects subs days) days.toNat),
        postGreedySubjects subs days) := by
  rw [generate_plan, postGreedySubjects]
  simp [not_le.mpr hd]

/-- Length of the round-robin plan for a non-empty subject list. -/
theorem roundRobinPass_length (subs : List Subject) (n : Nat)
    (hs : subs.length ≠ 0) :
    (roundRobinPass subs n).length = n := by
  rw [roundRobinPass, dif_neg hs]
  simp

/-- The round-robin plan of an empty subject list is empty. -/
theorem roundRobinPass_nil (n : Nat) : roundRobinPass [] n = [] := by
  rw [roundRobinPass]
  simp

/-- Entry `k` (0-based) of the round-robin plan: day key `Day (k+1)` and the
assignment string of subject `k % subs.length`. -/
theorem roundRobinPass_getD (subs : List Subject) (n k : Nat)
    (hs : subs.length ≠ 0) (hk : k < n) :
    (roundRobinPass subs n).getD k ("", "") =
      (dayKey (k + 1),
        assignStr ((subs.getD (k % subs.length) ⟨"", 0⟩).name)
          ((subs.getD (k % subs.length) ⟨"", 0⟩).hours_needed)) := by
  have hmod : k % subs.length < subs.length :=
    Nat.mod_lt k (Nat.pos_of_ne_zero hs)
  rw [roundRobinPass, dif_neg hs]
  simp [List.getD_eq_getElem?_getD, List.getElem?_map, List.getElem?_range hk,
    List.getElem?_eq_getElem hmod, List.get_eq_getElem]

/-! ### Claim theorems -/

/-- Claim C1 (refuted on the code — the source discards the greedy plan and
returns the round-robin one, built from the already-decremented hour
counters): on the valid request with subjects Math (6 hrs) and Physics
(4 hrs) over 2 days, whose total is 10 hours, the returned schedule's two
assignment strings each carry 0 hours, so the schedule does not conserve
the input's total hours. -/
theorem generate_plan_violates_hour_conservation :
    generate_plan [⟨"Math", 6⟩, ⟨"Physics", 4⟩] 2 =
      (ScheduleResult.plan [("Day 1", "Math - 0 hrs"), ("Day 2", "Physics - 0 hrs")],
        [⟨"Math", 0⟩, ⟨"Physics", 0⟩]) ∧
      sumHours [⟨"Math", 6⟩, ⟨"Physics", 4⟩] = 10 := by
  constructor
  · rfl
  · rfl

/-- Claim C2 (refuted on the code — the greedy pass decrements
`hours_needed` in place on the caller's objects): after
`generate_plan [Subject A with 5 hours] 2`, the caller's subject list holds
A with 1 hour, not the original 5. -/
theorem generate_plan_mutates_caller_subjects :
    (generate_plan [⟨"A", 5⟩] 2).2 = [⟨"A", 1⟩] ∧
      (generate_plan [⟨"A", 5⟩] 2).2 ≠ [⟨"A", 5⟩] := by
  constructor
  · rfl
  · decide

/-- Claim C3, counterexample: for the empty subjects list and 5 days the
returned dictionary has 0 day entries, not 5 (the round-robin pass breaks
immediately when there are no subjects). -/
theorem generate_plan_empty_subjects_no_day_entries :
    ¬ dayCount (generate_plan [] 5).1 = 5 := by
  decide

/-- Claim C3 as amended: for every request with `days ≥ 1`, a non-empty
subjects list yields exactly `days` day entries, while the empty subjects
list yields a dictionary with no day entries at all. -/
theorem generate_plan_day_count (subs : List Subject) (days : Int)
    (hd : 1 ≤ days) :
    (subs ≠ [] → dayCount (generate_plan subs days).1 = days.toNat) ∧
      dayCount (generate_plan ([] : List Subject) days).1 = 0 := by
  have hpos : 0 < days := hd
  constructor
  · intro hs
    rw [generate_plan_pos subs days hpos]
    have hlen : (postGreedySubjects subs days).length ≠ 0 := by
      rw [postGreedySubjects_length]
      simpa [List.length_eq_zero] using hs
    simp [dayCount, roundRobinPass_length _ _ hlen]
  · rw [generate_plan_pos [] days hpos]
    have hlen : (postGreedySubjects [] days).length = 0 := by
      rw [postGreedySubjects_length]; rfl
    rw [List.length_eq_zero] at hlen
    simp [dayCount, hlen, roundRobinPass_nil]

/-- Witness for the amended claim C3 at subjects `[A, 1 hr]`, `days = 2`. -/
theorem generate_plan_day_count_witness :
    (1 : Int) ≤ 2 ∧
      (([Subject.mk "A" 1] ≠ [] →
          dayCount (generate_plan [Subject.mk "A" 1] 2).1 = (2 : Int).toNat) ∧
        dayCount (generate_plan ([] : List Subject) 2).1 = 0) :=
  ⟨by decide, generate_plan_day_count [Subject.mk "A" 1] 2 (by decide)⟩

/-- Claim C4: for every subjects list and every `days ≤ 0`, `generate_plan`
returns the error dictionary as data, carrying exactly the message
`Number of days must be at least 1.`, with no partial schedule. -/
theorem generate_plan_invalid_days (subs : List Subject) (days : Int)
    (hd : days ≤ 0) :
    (generate_plan subs days).1 =
      ScheduleResult.error "Number of days must be at least 1." := by
  rw [generate_plan_nonpos subs days hd]

/-- Witness for claim C4 at `days = 0` and `days = -3`. -/
theorem generate_plan_invalid_days_witness :
    ((0 : Int) ≤ 0 ∧
      (generate_plan [Subject.mk "A" 3] 0).1 =
        ScheduleResult.error "Number of days must be at least 1.") ∧
    ((-3 : Int) ≤ 0 ∧
      (generate_plan [Subject.mk "A" 3] (-3)).1 =
        ScheduleResult.error "Number of days must be at least 1.") :=
  ⟨⟨by decide, generate_plan_invalid_days [Subject.mk "A" 3] 0 (by decide)⟩,
    ⟨by decide, generate_plan_invalid_days [Subject.mk "A" 3] (-3) (by decide)⟩⟩

/-- Claim C5 (refuted on the code): on subjects `[History, 7 hrs]` and
3 days, the returned schedule is not the greedy one the claim describes
(2+2+2 hours plus a 1-hour `Adjusted` entry) but the round-robin one:
every day maps to the single string `History - 1 hrs` (1 being History's
post-greedy-pass remaining hours), so only 3 of the 7 hours are
represented. -/
theorem generate_plan_history_scenario :
    generate_plan [⟨"History", 7⟩] 3 =
      (ScheduleResult.plan [("Day 1", "History - 1 hrs"),
        ("Day 2", "History - 1 hrs"), ("Day 3", "History - 1 hrs")],
        [⟨"History", 1⟩]) := by
  rfl

/-- Claim C6 (refuted on the code): on subjects `[A (1 hr), B (1 hr)]` and
3 days, the returned schedule assigns Day 1 to A, Day 2 to B and Day 3 to A
again — subject A reappears after B, so the output does not preserve the
input's relative subject order once days exceed the number of subjects. -/
theorem generate_plan_order_violated :
    generate_plan [⟨"A", 1⟩, ⟨"B", 1⟩] 3 =
      (ScheduleResult.plan [("Day 1", "A - 0 hrs"), ("Day 2", "B - 0 hrs"),
        ("Day 3", "A - 0 hrs")],
        [⟨"A", 0⟩, ⟨"B", 0⟩]) := by
  rfl

/-- Claim C7 (refuted on the code in its `total_hours = 0` clause): on the
single zero-hour subject A over 2 days, `hours_per_day` is 0 as claimed, but
the returned dictionary maps every day to the string `A - 0 hrs` rather
than to an empty assignment list (the round-robin pass ignores
`hours_per_day` entirely). -/
theorem generate_plan_zero_total_hours :
    generate_plan [⟨"A", 0⟩] 2 =
      (ScheduleResult.plan [("Day 1", "A - 0 hrs"), ("Day 2", "A - 0 hrs")],
        [⟨"A", 0⟩]) := by
  rfl

/-- Claim C8: `generate_plan` is a total function: for every finite
subjects list and every integer `days` it returns a value, the error
dictionary exactly when `days ≤ 0` and a plan dictionary otherwise. -/
theorem generate_plan_total (subs : List Subject) (days : Int) :
    (days ≤ 0 ∧ (generate_plan subs days).1 =
        ScheduleResult.error "Number of days must be at least 1.") ∨
      (0 < days ∧ ∃ es, (generate_plan subs days).1 = ScheduleResult.plan es) := by
  by_cases hd : days ≤ 0
  · left
    exact ⟨hd, by rw [generate_plan_nonpos subs days hd]⟩
  · right
    have hpos : 0 < days := by omega
    exact ⟨hpos,
      ⟨roundRobinPass (postGreedySubjects subs days) days.toNat,
        by rw [generate_plan_pos subs days hpos]⟩⟩

/-- Claim C9: for every non-empty subjects list and `days ≥ 1`,
`generate_plan` returns a plan dictionary with exactly `days` entries in
which entry `k` (0-based) maps the key `Day (k+1)` to the single string
built from the name and the post-greedy-pass (mutated-in-place)
`hours_needed` of subject `k % subs.length`. -/
theorem generate_plan_round_robin_shape (subs : List Subject) (days : Int)
    (hs : subs ≠ []) (hd : 0 < days) :
    ∃ es, (generate_plan subs days).1 = ScheduleResult.plan es ∧
      es.length = days.toNat ∧
      ∀ k, k < days.toNat →
        es.getD k ("", "") =
          (dayKey (k + 1),
            assignStr
              ((postGreedySubjects subs days).getD (k % subs.length) ⟨"", 0⟩).name
              ((postGreedySubjects subs days).getD (k % subs.length) ⟨"", 0⟩).hours_needed) := by
  have hlen : (postGreedySubjects subs days).length = subs.length :=
    postGreedySubjects_length subs days
  have hne : (postGreedySubjects subs days).length ≠ 0 := by
    rw [hlen]
    simpa [List.length_eq_zero] using hs
  refine ⟨roundRobinPass (postGreedySubjects subs days) days.toNat, ?_, ?_, ?_⟩
  · rw [generate_plan_pos subs days hd]
  · exact roundRobinPass_length _ _ hne
  · intro k hk
    rw [roundRobinPass_getD _ _ _ hne hk, hlen]

/-- Witness for claim C9 at subjects `[A, 2 hrs]`, `days = 2`. -/
theorem generate_plan_round_robin_shape_witness :
    ([Subject.mk "A" 2] ≠ [] ∧ (0 : Int) < 2) ∧
      (∃ es, (generate_plan [Subject.mk "A" 2] 2).1 = ScheduleResult.plan es ∧
        es.length = (2 : Int).toNat ∧
        ∀ k, k < (2 : Int).toNat →
          es.getD k ("", "") =
            (dayKey (k + 1),
              assignStr
                ((postGreedySubjects [Subject.mk "A" 2] 2).getD
                  (k % [Subject.mk "A" 2].length) ⟨"", 0⟩).name
                ((postGreedySubjects [Subject.mk "A" 2] 2).getD
                  (k % [Subject.mk "A" 2].length) ⟨"", 0⟩).hours_needed)) :=
  ⟨⟨by decide, by decide⟩,
    generate_plan_round_robin_shape [Subject.mk "A" 2] 2 (by decide) (by decide)⟩

/-- Claim C10: on the error path (`days ≤ 0`) `generate_plan` returns
before the greedy pass runs, so the caller's subject list is unchanged. -/
theorem generate_plan_error_atomicity (subs : List Subject) (days : Int)
    (hd : days ≤ 0) :
    (generate_plan subs days).2 = subs := by
  rw [generate_plan_nonpos subs days hd]

/-- Witness for claim C10 at subjects `[B, 4 hrs]`, `days = -3`. -/
theorem generate_plan_error_atomicity_witness :
    (-3 : Int) ≤ 0 ∧ (generate_plan [Subject.mk "B" 4] (-3)).2 = [Subject.mk "B" 4] :=
  ⟨by decide, generate_plan_error_atomicity [Subject.mk "B" 4] (-3) (by decide)⟩
